import Mathlib

/-!
Verification of the TWFF recording-and-export core of the glassbox
repository: a shallow embedding of src/glassbox/components/process_log.py
and src/glassbox/components/pdf_exporter.py, together with theorems
settling the specified properties of the event log, the archive builder,
the usage-report calculator and the rendering-engine selection.

Conventions of the embedding:
  - wall-clock reads (datetime.datetime.utcnow()) are passed in as explicit
    arguments, one per read the source performs;
  - machine-independent data (ids from uuid.uuid4()) are likewise explicit
    arguments;
  - SHA-256 (hashlib.sha256(...).hexdigest()) is embedded concretely below,
    over Nat words reduced mod 2^32.
-/

namespace Twff

namespace SHA256

/-- Reduction of a word to 32 bits. -/
def w32 (x : Nat) : Nat := x % 4294967296

/-- Right rotation of a 32-bit word (input assumed < 2^32). -/
def rotr (n x : Nat) : Nat := w32 ((x >>> n) ||| (x <<< (32 - n)))

def bigS0 (x : Nat) : Nat := rotr 2 x ^^^ rotr 13 x ^^^ rotr 22 x

def bigS1 (x : Nat) : Nat := rotr 6 x ^^^ rotr 11 x ^^^ rotr 25 x

def sig0 (x : Nat) : Nat := rotr 7 x ^^^ rotr 18 x ^^^ (x >>> 3)

def sig1 (x : Nat) : Nat := rotr 17 x ^^^ rotr 19 x ^^^ (x >>> 10)

def ch (x y z : Nat) : Nat := (x &&& y) ^^^ ((x ^^^ 4294967295) &&& z)

def maj (x y z : Nat) : Nat := (x &&& y) ^^^ (x &&& z) ^^^ (y &&& z)

/-- Round constants (decimal rendering of the 64 standard words). -/
def K : Array Nat := #[
  1116352408, 1899447441, 3049323471, 3921009573, 961987163,
  1508970993, 2453635748, 2870763221, 3624381080, 310598401,
  607225278, 1426881987, 1925078388, 2162078206, 2614888103,
  3248222580, 3835390401, 4022224774, 264347078, 604807628,
  770255983, 1249150122, 1555081692, 1996064986, 2554220882,
  2821834349, 2952996808, 3210313671, 3336571891, 3584528711,
  113926993, 338241895, 666307205, 773529912, 1294757372,
  1396182291, 1695183700, 1986661051, 2177026350, 2456956037,
  2730485921, 2820302411, 3259730800, 3345764771, 3516065817,
  3600352804, 4094571909, 275423344, 430227734, 506948616,
  659060556, 883997877, 958139571, 1322822218, 1537002063,
  1747873779, 1955562222, 2024104815, 2227730452, 2361852424,
  2428436474, 2756734187, 3204031479, 3329325298]

/-- Initial hash state (decimal rendering of the 8 standard words). -/
def H0 : Array Nat := #[
  1779033703, 3144134277, 1013904242, 2773480762, 1359893119,
  2600822924, 528734635, 1541459225]

/-- Big-endian byte rendering of a value, fixed width. -/
def bytesBE : Nat → Nat → List Nat
  | 0, _ => []
  | n + 1, v => bytesBE n (v / 256) ++ [v % 256]

/-- Merkle–Damgård padding: 0x80, zeros, 64-bit big-endian bit length. -/
def pad (msg : List Nat) : List Nat :=
  msg ++ [128] ++ List.replicate ((64 - (msg.length + 9) % 64) % 64) 0
      ++ bytesBE 8 (8 * msg.length)

/-- Pack big-endian bytes into 32-bit words. -/
def toWords : List Nat → List Nat
  | a :: b :: c :: d :: rest => (((a * 256 + b) * 256 + c) * 256 + d) :: toWords rest
  | _ => []

/-- Message-schedule expansion from 16 to 64 words. -/
def schedule (ws : Array Nat) : Array Nat := Id.run do
  let mut w := ws
  for i in [16:64] do
    w := w.push (w32 (sig1 w[i-2]! + w[i-7]! + sig0 w[i-15]! + w[i-16]!))
  return w

/-- Compression of one 64-byte block into the running state. -/
def compress (h : Array Nat) (block : List Nat) : Array Nat := Id.run do
  let w := schedule (toWords block).toArray
  let mut a := h[0]!
  let mut b := h[1]!
  let mut c := h[2]!
  let mut d := h[3]!
  let mut e := h[4]!
  let mut f := h[5]!
  let mut g := h[6]!
  let mut hh := h[7]!
  for i in [0:64] do
    let t1 := w32 (hh + bigS1 e + ch e f g + K[i]! + w[i]!)
    let t2 := w32 (bigS0 a + maj a b c)
    hh := g
    g := f
    f := e
    e := w32 (d + t1)
    d := c
    c := b
    b := a
    a := w32 (t1 + t2)
  return #[w32 (h[0]! + a), w32 (h[1]! + b), w32 (h[2]! + c), w32 (h[3]! + d),
           w32 (h[4]! + e), w32 (h[5]! + f), w32 (h[6]! + g), w32 (h[7]! + hh)]

/-- Split into 64-byte blocks (fuel-indexed for termination). -/
def blocksAux : Nat → List Nat → List (List Nat)
  | 0, _ => []
  | _, [] => []
  | n + 1, l => l.take 64 :: blocksAux n (l.drop 64)

/-- Digest state after absorbing a whole byte message. -/
def digestWords (msg : List Nat) : Array Nat :=
  (blocksAux (pad msg).length (pad msg)).foldl compress H0

/-- Lower-case hex digit. -/
def hexChar (n : Nat) : Char :=
  if n < 10 then Char.ofNat (48 + n) else Char.ofNat (87 + n)

/-- Lower-case hex rendering of one 32-bit word. -/
def hexWord (v : Nat) : String :=
  String.mk ((bytesBE 4 v).foldr (fun b acc => hexChar (b / 16) :: hexChar (b % 16) :: acc) [])

/-- Hex digest of a byte message, as hashlib's hexdigest(). -/
def hexdigest (msg : List Nat) : String :=
  String.join ((digestWords msg).toList.map hexWord)

/-- Hex SHA-256 of a string's UTF-8 bytes: hashlib.sha256(s.encode()).hexdigest(). -/
def sha256hex (s : String) : String :=
  hexdigest (s.toUTF8.toList.map UInt8.toNat)

end SHA256

/-- Timestamp as carried in the log. The source stores
datetime.datetime.utcnow().isoformat() + "Z" strings; we model a timestamp
either as a well-formed UTC instant (epoch seconds) or as a malformed
string, since the usage-report calculator must cope with timestamps that
fail to parse. -/
inductive TS where
  | iso (t : Int)
  | malformed (s : String)
deriving DecidableEq

/-- String form of a timestamp (stand-in for the isoformat rendering). -/
def TS.render : TS → String
  | .iso t => toString t ++ "Z"
  | .malformed s => s

/-- Metadata value in an event's meta dict (the source stores strings and
ints). -/
inductive Mval where
  | s (v : String)
  | i (v : Int)
deriving DecidableEq

/-- One TWFF event, as built by ProcessLog.log_event:
a dict with keys timestamp, type, meta. -/
structure Event where
  timestamp : TS
  type : String
  meta : List (String × Mval)
deriving DecidableEq

/-- JSON escaping of one character (json.dumps; control/unicode escapes
abstracted, quote and backslash handled). -/
def jescape (c : Char) : String :=
  if c = '\\' then "\\\\"
  else if c = '"' then "\\\""
  else String.singleton c

/-- JSON string literal. -/
def jstr (s : String) : String :=
  "\"" ++ String.join (s.toList.map jescape) ++ "\""

/-- JSON rendering of a metadata value. -/
def Mval.render : Mval → String
  | .s v => jstr v
  | .i v => toString v

/-- Stable key ordering of a dict, as json.dumps(..., sort_keys=True). -/
def sortPairs (m : List (String × Mval)) : List (String × Mval) :=
  m.mergeSort (fun a b => decide (a.1 ≤ b.1))

/-- JSON object for an event's meta dict, keys sorted. -/
def renderMeta (m : List (String × Mval)) : String :=
  "\x7b" ++ String.intercalate ", "
      ((sortPairs m).map (fun kv => jstr kv.1 ++ ": " ++ kv.2.render)) ++ "\x7d"

/-- JSON object for one event with sorted keys (meta < timestamp < type). -/
def renderEvent (e : Event) : String :=
  "\x7b" ++ jstr "meta" ++ ": " ++ renderMeta e.meta ++ ", "
        ++ jstr "timestamp" ++ ": " ++ jstr e.timestamp.render ++ ", "
        ++ jstr "type" ++ ": " ++ jstr e.type ++ "\x7d"

/-- Canonical serialization of the events array:
json.dumps(self.events, sort_keys=True). -/
def serializeEvents (evts : List Event) : String :=
  "[" ++ String.intercalate ", " (evts.map renderEvent) ++ "]"

/-- ProcessLog.SPEC_VERSION. -/
def SPEC_VERSION : String := "0.1.0"

/-- ProcessLog._generate_ephemeral_id: "anon-" + sha256(raw uuid)[:12].
The fresh uuid string is an explicit argument. -/
def generate_ephemeral_id (raw : String) : String :=
  "anon-" ++ (SHA256.sha256hex raw).take 12

/-- Mutable state of a ProcessLog instance. -/
structure ProcessLog where
  session_id : String
  user_id : String
  start_time : TS
  events : List Event
deriving DecidableEq

/-- Event dict as assembled inside ProcessLog.log_event. -/
def mkEvent (now : TS) (event_type : String) (meta : List (String × Mval)) : Event :=
  { timestamp := now, type := event_type, meta := meta }

/-- ProcessLog.log_event: appends an event carrying the current clock
reading, and returns it. -/
def ProcessLog.log_event (pl : ProcessLog) (now : TS) (event_type : String)
    (meta : List (String × Mval)) : ProcessLog × Event :=
  let e := mkEvent now event_type meta
  ({ pl with events := pl.events ++ [e] }, e)

/-- ProcessLog.__init__: session_id is the fresh uuid; user_id falls back to
an ephemeral id when the argument is None or empty (Python falsiness of
str); start_time and the session_start event each take one clock reading
(t0 then t1). -/
def ProcessLog.init (session_id : String) (user_id : Option String) (raw : String)
    (t0 t1 : TS) : ProcessLog :=
  let uid := match user_id with
    | some u => if u = "" then generate_ephemeral_id raw else u
    | none => generate_ephemeral_id raw
  (ProcessLog.log_event
    { session_id := session_id, user_id := uid, start_time := t0, events := [] }
    t1 "session_start" []).1

/-- ProcessLog.log_checkpoint. -/
def ProcessLog.log_checkpoint (pl : ProcessLog) (now : TS)
    (char_count word_count cursor_position : Int) : ProcessLog × Event :=
  pl.log_event now "checkpoint"
    [("char_count_total", .i char_count),
     ("word_count_total", .i word_count),
     ("position", .i cursor_position)]

/-- ProcessLog.log_edit. -/
def ProcessLog.log_edit (pl : ProcessLog) (now : TS)
    (position_start position_end : Int) (source : String) : ProcessLog × Event :=
  pl.log_event now "edit"
    [("position_start", .i position_start),
     ("position_end", .i position_end),
     ("source", .s source)]

/-- ProcessLog.log_paste: preview truncated to 100 characters. -/
def ProcessLog.log_paste (pl : ProcessLog) (now : TS)
    (char_count position_start position_end : Int)
    (source preview : String) : ProcessLog × Event :=
  pl.log_event now "paste"
    [("char_count", .i char_count),
     ("source", .s source),
     ("position_start", .i position_start),
     ("position_end", .i position_end),
     ("output_preview", .s (preview.take 100))]

/-- ProcessLog.log_ai_interaction: input preview truncated to 100,
output preview to 50 characters. -/
def ProcessLog.log_ai_interaction (pl : ProcessLog) (now : TS)
    (interaction_type model : String) (output_length position_start position_end : Int)
    (output_preview acceptance input_preview : String) : ProcessLog × Event :=
  pl.log_event now "ai_interaction"
    [("interaction_type", .s interaction_type),
     ("model", .s model),
     ("input_preview", .s (input_preview.take 100)),
     ("output_preview", .s (output_preview.take 50)),
     ("output_length", .i output_length),
     ("position_start", .i position_start),
     ("position_end", .i position_end),
     ("acceptance", .s acceptance)]

/-- ProcessLog.log_focus_change. -/
def ProcessLog.log_focus_change (pl : ProcessLog) (now : TS)
    (duration_ms : Int) : ProcessLog × Event :=
  pl.log_event now "focus_change" [("duration_ms", .i duration_ms)]

/-- ProcessLog.end_session: reads the clock for the returned end_time
(tEnd), then log_event reads it again for the session_end event (tEvt).
Appends unconditionally — there is no frozen/finalized flag in the
source. -/
def ProcessLog.end_session (pl : ProcessLog) (tEnd tEvt : TS) : ProcessLog × TS :=
  ((pl.log_event tEvt "session_end" []).1, tEnd)

/-- Top-level shape of meta/process-log.json (without _integrity). -/
structure SessionDoc where
  version : String
  session_id : String
  user_id : String
  start_time : TS
  end_time : TS
  content_source : String
  events : List Event
deriving DecidableEq

/-- ProcessLog.to_dict: snapshot of the log; end_time falls back to a fresh
clock reading (now) when the argument is None. -/
def ProcessLog.to_dict (pl : ProcessLog) (end_time : Option TS) (now : TS) : SessionDoc :=
  { version := SPEC_VERSION,
    session_id := pl.session_id,
    user_id := pl.user_id,
    start_time := pl.start_time,
    end_time := end_time.getD now,
    content_source := "content/document.xhtml",
    events := pl.events }

/-- The _integrity record attached to the exported process log. -/
structure Integrity where
  algorithm : String
  salt : String
  hash : String
  note : String
deriving DecidableEq

/-- JSON body of meta/process-log.json: json.dumps(process_log_dict,
indent=2); insertion key order, pretty-printing indentation abstracted. -/
def serializeDoc (d : SessionDoc) (ig : Integrity) : String :=
  "\x7b" ++ jstr "version" ++ ": " ++ jstr d.version ++ ", "
        ++ jstr "session_id" ++ ": " ++ jstr d.session_id ++ ", "
        ++ jstr "user_id" ++ ": " ++ jstr d.user_id ++ ", "
        ++ jstr "start_time" ++ ": " ++ jstr d.start_time.render ++ ", "
        ++ jstr "end_time" ++ ": " ++ jstr d.end_time.render ++ ", "
        ++ jstr "content_source" ++ ": " ++ jstr d.content_source ++ ", "
        ++ jstr "events" ++ ": " ++ serializeEvents d.events ++ ", "
        ++ jstr "_integrity" ++ ": \x7b"
        ++ jstr "algorithm" ++ ": " ++ jstr ig.algorithm ++ ", "
        ++ jstr "salt" ++ ": " ++ jstr ig.salt ++ ", "
        ++ jstr "hash" ++ ": " ++ jstr ig.hash ++ ", "
        ++ jstr "note" ++ ": " ++ jstr ig.note ++ "\x7d\x7d"

/-- ProcessLog._build_manifest. -/
def build_manifest : String :=
  "<?xml version=\"1.0\" encoding=\"UTF-8\"?>\n<manifest>\n  <item id=\"content\" href=\"content/document.xhtml\" media-type=\"application/xhtml+xml\"/>\n  <item id=\"log\" href=\"meta/process-log.json\" media-type=\"application/json\"/>\n</manifest>"

/-- Result of ProcessLog.export: the mutated log, the process-log document
and integrity record embedded in meta/process-log.json, and the ZIP
archive as its ordered (path, content) entries. -/
structure ExportResult where
  log : ProcessLog
  doc : SessionDoc
  integrity : Integrity
  archive : List (String × String)
deriving DecidableEq

/-- ProcessLog.export: finalizes via end_session, snapshots via to_dict,
hashes json.dumps(events, sort_keys=True) + session_id with SHA-256, and
writes the three ZIP entries in order. -/
def ProcessLog.export (pl : ProcessLog) (xhtml_content : String)
    (tEnd tEvt : TS) : ExportResult :=
  let r := pl.end_session tEnd tEvt
  let pl2 := r.1
  let end_time := r.2
  let d := pl2.to_dict (some end_time) end_time
  let events_json := serializeEvents pl2.events
  let salt := pl2.session_id
  let integrity_hash := SHA256.sha256hex (events_json ++ salt)
  let ig : Integrity :=
    { algorithm := "SHA-256",
      salt := "session_id",
      hash := integrity_hash,
      note := "Hash of events array concatenated with session_id salt." }
  { log := pl2, doc := d, integrity := ig,
    archive := [("content/document.xhtml", xhtml_content),
                ("meta/process-log.json", serializeDoc d ig),
                ("meta/manifest.xml", build_manifest)] }

/-- One entry of the logger-side annotation registry
(process_log.py, source name ANNOTATION_TYPES). -/
structure AnnEntry where
  css_class : String
  label : String
  description : String
  log_type : String
  interaction : String
deriving DecidableEq

/-- The annotation type registry defined in process_log.py
(source name ANNOTATION_TYPES), in insertion order. -/
def ANN_TYPES : List (String × AnnEntry) :=
  [("ai_paraphrase",
    { css_class := "ann-paraphrase", label := "AI Paraphrase",
      description := "Text rewritten by an AI assistant",
      log_type := "ai_interaction", interaction := "paraphrase" }),
   ("ai_generated",
    { css_class := "ann-generated", label := "AI Generated",
      description := "Text written entirely by an AI assistant",
      log_type := "ai_interaction", interaction := "draft" }),
   ("external_paste",
    { css_class := "ann-external", label := "External Source",
      description := "Text pasted from an external source",
      log_type := "paste", interaction := "external" }),
   ("ai_completion",
    { css_class := "ann-completion", label := "AI Completion",
      description := "Tab-completed by Glass Box",
      log_type := "ai_interaction", interaction := "completion" })]

/-- One entry of the renderer-side annotation colour palette
(pdf_exporter.py, ANN_COLOURS). -/
structure ColourEntry where
  hex : String
  label : String
  desc : String
deriving DecidableEq

/-- The annotation colour palette defined in pdf_exporter.py
(ANN_COLOURS), keyed by CSS class, in insertion order; consumed by both
the WeasyPrint and the ReportLab backend. -/
def ANN_COLOURS : List (String × ColourEntry) :=
  [("ann-paraphrase",
    { hex := "#3b82f6", label := "AI Paraphrase",
      desc := "Text rewritten by an AI assistant" }),
   ("ann-generated",
    { hex := "#10b981", label := "AI Generated",
      desc := "Text drafted entirely by an AI assistant" }),
   ("ann-external",
    { hex := "#f59e0b", label := "External Source",
      desc := "Text pasted from an external source" }),
   ("ann-completion",
    { hex := "#8b5cf6", label := "AI Completion",
      desc := "Inline tab-completion accepted" })]

/-- The two rendering backends of pdf_exporter.py. -/
inductive Engine where
  | weasyprint
  | reportlab
deriving DecidableEq

/-- Error message raised by PDFExporter.export when neither engine is
available (RuntimeError text, verbatim). -/
def no_engine_message : String :=
  "No PDF engine found.\n  pip install reportlab          ← pure Python, works everywhere\n  python setup_weasyprint.py --setup  ← for full CSS rendering"

/-- Engine selection of PDFExporter.export: the two capability probes
(_weasyprint_ok, _reportlab_ok) enter as booleans; primary first, then
fallback, else the dedicated RuntimeError. -/
def pdf_select (weasy_ok reportlab_ok : Bool) : Except String Engine :=
  if weasy_ok then Except.ok Engine.weasyprint
  else if reportlab_ok then Except.ok Engine.reportlab
  else Except.error no_engine_message

/-- PDFExporter.engine_name. -/
def engine_name (weasy_ok reportlab_ok : Bool) : String :=
  if weasy_ok then "WeasyPrint"
  else if reportlab_ok then "ReportLab"
  else "none"

/-- Prefix test on character lists. -/
def charsPrefix : List Char → List Char → Bool
  | [], _ => true
  | _ :: _, [] => false
  | n :: ns, h :: hs => n == h && charsPrefix ns hs

/-- Substring test on character lists. -/
def charsSub (needle : List Char) : List Char → Bool
  | [] => needle.isEmpty
  | h :: rest => charsPrefix needle (h :: rest) || charsSub needle rest

/-- Decidable substring test (used to state that the error names both
remediation paths). -/
def strContains (hay needle : String) : Bool :=
  charsSub needle.toList hay.toList

/-- PDFExporter._ts: strptime on the timestamp string; raises on a
malformed timestamp, modelled as none. -/
def pdf_ts : TS → Option Int
  | .iso t => some t
  | .malformed _ => none

/-- Result of PDFExporter._stats. -/
structure Stats where
  ai : Nat
  paste : Nat
  edits : Nat
  mins : Int
deriving DecidableEq

/-- PDFExporter._stats: counts are computed outside the try block and
always succeed; minutes come from start_time and the last session_end
event (or a fresh clock reading, now, when none exists), as
max(1, int((end - start).total_seconds() / 60)), with any parse failure
caught and degraded to 0 minutes. Int.tdiv matches Python int()
truncation toward zero. -/
def pdf_stats (start_time : TS) (evts : List Event) (now : Int) : Stats :=
  let ends := evts.filter (fun e => e.type == "session_end")
  let mins : Int :=
    match pdf_ts start_time with
    | none => 0
    | some start =>
      match ends.getLast? with
      | none => max 1 (Int.tdiv (now - start) 60)
      | some e =>
        match pdf_ts e.timestamp with
        | none => 0
        | some endt => max 1 (Int.tdiv (endt - start) 60)
  { ai := (evts.filter (fun e => e.type == "ai_interaction")).length,
    paste := (evts.filter (fun e => e.type == "paste")).length,
    edits := (evts.filter (fun e => e.type == "edit")).length,
    mins := mins }

/-- One call of the public recording/finalization API of ProcessLog, used
to quantify over all operation sequences on a session. -/
inductive Op where
  | checkpoint (char_count word_count cursor_position : Int)
  | edit (position_start position_end : Int) (source : String)
  | paste (char_count position_start position_end : Int) (source preview : String)
  | ai (interaction_type model : String)
       (output_length position_start position_end : Int)
       (output_preview acceptance input_preview : String)
  | focus (duration_ms : Int)
  | endSession
deriving DecidableEq

/-- Single event appended by one operation at clock reading t. -/
def Op.event (t : TS) : Op → Event
  | .checkpoint cc wc pos =>
      mkEvent t "checkpoint"
        [("char_count_total", .i cc), ("word_count_total", .i wc), ("position", .i pos)]
  | .edit ps pe src =>
      mkEvent t "edit"
        [("position_start", .i ps), ("position_end", .i pe), ("source", .s src)]
  | .paste cc ps pe src prev =>
      mkEvent t "paste"
        [("char_count", .i cc), ("source", .s src), ("position_start", .i ps),
         ("position_end", .i pe), ("output_preview", .s (prev.take 100))]
  | .ai it model ol ps pe op acc ip =>
      mkEvent t "ai_interaction"
        [("interaction_type", .s it), ("model", .s model),
         ("input_preview", .s (ip.take 100)), ("output_preview", .s (op.take 50)),
         ("output_length", .i ol), ("position_start", .i ps),
         ("position_end", .i pe), ("acceptance", .s acc)]
  | .focus ms => mkEvent t "focus_change" [("duration_ms", .i ms)]
  | .endSession => mkEvent t "session_end" []

/-- Apply one operation through the corresponding ProcessLog method. -/
def applyOp (pl : ProcessLog) (x : TS × Op) : ProcessLog :=
  match x.2 with
  | .checkpoint cc wc pos => (pl.log_checkpoint x.1 cc wc pos).1
  | .edit ps pe src => (pl.log_edit x.1 ps pe src).1
  | .paste cc ps pe src prev => (pl.log_paste x.1 cc ps pe src prev).1
  | .ai it model ol ps pe op acc ip =>
      (pl.log_ai_interaction x.1 it model ol ps pe op acc ip).1
  | .focus ms => (pl.log_focus_change x.1 ms).1
  | .endSession => (pl.end_session x.1 x.1).1

/-- Run a sequence of operations, each with its own clock reading. -/
def run (pl : ProcessLog) (ops : List (TS × Op)) : ProcessLog :=
  ops.foldl applyOp pl

/-- Event type string produced by each operation. -/
def Op.etype : Op → String
  | .checkpoint .. => "checkpoint"
  | .edit .. => "edit"
  | .paste .. => "paste"
  | .ai .. => "ai_interaction"
  | .focus .. => "focus_change"
  | .endSession => "session_end"

/-- Whether an operation is the finalization call. -/
def Op.isEnd : Op → Bool
  | .endSession => true
  | _ => false

lemma applyOp_events (pl : ProcessLog) (x : TS × Op) :
    (applyOp pl x).events = pl.events ++ [Op.event x.1 x.2] := by
  rcases x with ⟨t, o⟩
  cases o <;> rfl

lemma run_events (pl : ProcessLog) (ops : List (TS × Op)) :
    (run pl ops).events = pl.events ++ ops.map (fun x => Op.event x.1 x.2) := by
  induction ops generalizing pl with
  | nil => simp [run]
  | cons x xs ih =>
      show (run (applyOp pl x) xs).events = _
      rw [ih, applyOp_events]
      simp

lemma Op.event_timestamp (t : TS) (o : Op) : (Op.event t o).timestamp = t := by
  cases o <;> rfl

lemma Op.event_type (t : TS) (o : Op) : (Op.event t o).type = o.etype := by
  cases o <;> rfl

lemma Op.etype_ne_start (o : Op) : (o.etype == "session_start") = false := by
  cases o <;> rfl

lemma Op.etype_end_iff (o : Op) : (o.etype == "session_end") = o.isEnd := by
  cases o <;> rfl

lemma init_events (sid : String) (uid : Option String) (raw : String) (t0 t1 : TS) :
    (ProcessLog.init sid uid raw t0 t1).events = [mkEvent t1 "session_start" []] := rfl

lemma filter_type_map (s : String) (ops : List (TS × Op)) :
    ((ops.map (fun x => Op.event x.1 x.2)).filter (fun e => e.type == s))
      = ((ops.filter (fun x => x.2.etype == s)).map (fun x => Op.event x.1 x.2)) := by
  induction ops with
  | nil => rfl
  | cons x xs ih =>
      simp only [List.map_cons, List.filter_cons, Op.event_type]
      rcases h : (x.2.etype == s) with _ | _ <;> simp [h, ih]

/-- C1 — Integrity round-trip: for every exported archive, the stored
_integrity hash equals SHA-256 over the canonical serialization of the
exported events array concatenated with the session_id salt; recomputing
it from the exported document reproduces the stored hash, the algorithm
field is "SHA-256", and the document and integrity record are exactly what
is serialized into the meta/process-log.json archive entry. -/
theorem integrity_roundtrip (pl : ProcessLog) (xhtml : String) (tEnd tEvt : TS) :
    (pl.export xhtml tEnd tEvt).integrity.hash
      = SHA256.sha256hex (serializeEvents (pl.export xhtml tEnd tEvt).doc.events
          ++ (pl.export xhtml tEnd tEvt).doc.session_id)
  ∧ (pl.export xhtml tEnd tEvt).integrity.algorithm = "SHA-256"
  ∧ (pl.export xhtml tEnd tEvt).integrity.salt = "session_id"
  ∧ ("meta/process-log.json",
      serializeDoc (pl.export xhtml tEnd tEvt).doc (pl.export xhtml tEnd tEvt).integrity)
        ∈ (pl.export xhtml tEnd tEvt).archive := by
  refine ⟨rfl, rfl, rfl, ?_⟩
  exact List.Mem.tail _ (List.Mem.head _)

/-- C3 — Archive shape: export produces exactly the three entries
content/document.xhtml, meta/process-log.json, meta/manifest.xml in that
order, and the content stored at content/document.xhtml is the document
body string passed in, unchanged. -/
theorem archive_three_entries_document_unchanged
    (pl : ProcessLog) (xhtml : String) (tEnd tEvt : TS) :
    (pl.export xhtml tEnd tEvt).archive.map Prod.fst
      = ["content/document.xhtml", "meta/process-log.json", "meta/manifest.xml"]
  ∧ (pl.export xhtml tEnd tEvt).archive.length = 3
  ∧ (pl.export xhtml tEnd tEvt).archive.head? = some ("content/document.xhtml", xhtml) :=
  ⟨rfl, rfl, rfl⟩

/-- C4 — Engine fallback determinism: with probes (primary = false,
fallback = true) export selects the fallback engine; with (false, false)
it always fails with the dedicated no-engine error, whose message names
both remediation paths (install reportlab; run the weasyprint setup). -/
theorem engine_fallback_determinism :
    pdf_select false true = Except.ok Engine.reportlab
  ∧ pdf_select false false = Except.error no_engine_message
  ∧ strContains no_engine_message "pip install reportlab" = true
  ∧ strContains no_engine_message "setup_weasyprint" = true
  ∧ engine_name false true = "ReportLab"
  ∧ engine_name false false = "none" := by
  refine ⟨rfl, rfl, ?_, ?_, rfl, rfl⟩ <;> decide

/-- C10 — Snapshot of an open session: to_dict called without an end-time
override returns a document whose end_time is the fresh clock reading
(present and non-null), all other fields taken from the log unchanged. -/
theorem snapshot_end_time_synthetic (pl : ProcessLog) (now : TS) :
    pl.to_dict none now =
      { version := SPEC_VERSION,
        session_id := pl.session_id,
        user_id := pl.user_id,
        start_time := pl.start_time,
        end_time := now,
        content_source := "content/document.xhtml",
        events := pl.events } := rfl

/-- C5 counterexample — the two annotation tables are not identical data:
the human description of the generated kind reads "Text written entirely
by an AI assistant" in the logger's registry but "Text drafted entirely by
an AI assistant" in the renderers' palette, so the description lists
differ. -/
theorem ann_tables_descriptions_differ :
    (ANN_TYPES.map (fun kv => kv.2.description))
      ≠ (ANN_COLOURS.map (fun kv => kv.2.desc))
  ∧ ((ANN_TYPES.get? 1).map (fun kv => kv.2.description))
      = some "Text written entirely by an AI assistant"
  ∧ ((ANN_COLOURS.get? 1).map (fun kv => kv.2.desc))
      = some "Text drafted entirely by an AI assistant" := by
  refine ⟨?_, rfl, rfl⟩
  decide

/-- C5 amended — the logger registry and the renderer palette are separate
per-consumer copies that agree on the four kinds, their order (linked by
CSS class) and their display labels; the descriptions agree for the
paraphrase and external kinds but differ for the generated and completion
kinds. -/
theorem ann_tables_same_kinds_labels :
    ANN_TYPES.map (fun kv => kv.2.css_class) = ANN_COLOURS.map Prod.fst
  ∧ ANN_TYPES.map (fun kv => kv.2.label) = ANN_COLOURS.map (fun kv => kv.2.label)
  ∧ ANN_TYPES.length = 4
  ∧ ((ANN_TYPES.get? 0).map (fun kv => kv.2.description))
      = ((ANN_COLOURS.get? 0).map (fun kv => kv.2.desc))
  ∧ ((ANN_TYPES.get? 2).map (fun kv => kv.2.description))
      = ((ANN_COLOURS.get? 2).map (fun kv => kv.2.desc))
  ∧ ((ANN_TYPES.get? 1).map (fun kv => kv.2.description))
      ≠ ((ANN_COLOURS.get? 1).map (fun kv => kv.2.desc))
  ∧ ((ANN_TYPES.get? 3).map (fun kv => kv.2.description))
      ≠ ((ANN_COLOURS.get? 3).map (fun kv => kv.2.desc)) := by
  refine ⟨rfl, rfl, rfl, rfl, rfl, ?_, ?_⟩ <;> decide

/-- C2 counterexample — finalization is not idempotent: calling
end_session twice on a fresh session appends two session_end events, and
the second call returns a fresh end time instead of the original one. -/
theorem end_session_not_idempotent :
    (((run (ProcessLog.init "sid" (some "uid") "raw" (TS.iso 0) (TS.iso 0))
        [(TS.iso 1, Op.endSession), (TS.iso 2, Op.endSession)]).events.filter
          (fun e => e.type == "session_end")).length = 2)
  ∧ ((ProcessLog.init "sid" (some "uid") "raw" (TS.iso 0) (TS.iso 0)).end_session
        (TS.iso 1) (TS.iso 1)).2
      ≠ (((ProcessLog.init "sid" (some "uid") "raw" (TS.iso 0) (TS.iso 0)).end_session
            (TS.iso 1) (TS.iso 1)).1.end_session (TS.iso 2) (TS.iso 2)).2 := by
  exact ⟨by decide, by decide⟩

/-- C2 amended — for any sequence of API operations there is exactly one
session_start event and it sits at index 0; but the log is never frozen:
every end_session call appends one further session_end event (so two
finalize calls yield two session_end events) and every record call,
before or after finalization, appends exactly one event. -/
theorem session_events_per_operation (sid : String) (uid : Option String)
    (raw : String) (t0 t1 : TS) (ops : List (TS × Op)) :
    (run (ProcessLog.init sid uid raw t0 t1) ops).events.head?
        = some (mkEvent t1 "session_start" [])
  ∧ ((run (ProcessLog.init sid uid raw t0 t1) ops).events.filter
        (fun e => e.type == "session_start")).length = 1
  ∧ ((run (ProcessLog.init sid uid raw t0 t1) ops).events.filter
        (fun e => e.type == "session_end")).length
      = (ops.filter (fun x => x.2.isEnd)).length
  ∧ (run (ProcessLog.init sid uid raw t0 t1) ops).events.length = 1 + ops.length := by
  have hev : (run (ProcessLog.init sid uid raw t0 t1) ops).events
      = mkEvent t1 "session_start" [] :: ops.map (fun x => Op.event x.1 x.2) := by
    rw [run_events, init_events]
    rfl
  refine ⟨?_, ?_, ?_, ?_⟩
  · rw [hev]; rfl
  · rw [hev, List.filter_cons]
    simp only [filter_type_map, Op.etype_ne_start]
    simp [mkEvent]
  · rw [hev, List.filter_cons]
    simp only [filter_type_map, Op.etype_end_iff]
    simp [mkEvent]
  · rw [hev]
    simp [Nat.add_comm]

/-- Comparison on timestamps: well-formed instants ordered by their
epoch value; a malformed timestamp compares below nothing. -/
def TS.le : TS → TS → Bool
  | .iso a, .iso b => decide (a ≤ b)
  | _, _ => false

/-- C7 counterexample — timestamps are taken raw from the clock, with no
clamping: if the clock reports 3 after an event at 5, the new event is
stored with timestamp 3, strictly before its predecessor. -/
theorem clock_skew_not_clamped :
    ((ProcessLog.init "sid" (some "uid") "raw" (TS.iso 5) (TS.iso 5)).log_edit
        (TS.iso 3) 0 1 "human").1.events.map Event.timestamp = [TS.iso 5, TS.iso 3]
  ∧ TS.le (TS.iso 5) (TS.iso 3) = false := by
  exact ⟨by decide, by decide⟩

/-- Non-decreasing chain test on a list of timestamps. -/
def tsChain : List TS → Bool
  | [] => true
  | [_] => true
  | a :: b :: rest => TS.le a b && tsChain (b :: rest)

/-- C7 amended — the events list preserves call order and each event's
timestamp is exactly the wall-clock reading passed to the call (no
clamping); consequently the timestamps are non-decreasing precisely when
the clock readings are, and a backward clock step is stored as-is. -/
theorem timestamps_follow_clock (sid : String) (uid : Option String)
    (raw : String) (t0 t1 : TS) (ops : List (TS × Op))
    (h : tsChain (t1 :: ops.map Prod.fst) = true) :
    (run (ProcessLog.init sid uid raw t0 t1) ops).events.map Event.timestamp
        = t1 :: ops.map Prod.fst
  ∧ tsChain ((run (ProcessLog.init sid uid raw t0 t1) ops).events.map
        Event.timestamp) = true := by
  have hmap : (run (ProcessLog.init sid uid raw t0 t1) ops).events.map Event.timestamp
      = t1 :: ops.map Prod.fst := by
    rw [run_events, init_events]
    simp [Op.event_timestamp, mkEvent]
  exact ⟨hmap, hmap ▸ h⟩

/-- Witness for the amended C7 theorem at a concrete monotone clock. -/
theorem timestamps_follow_clock_witness :
    (run (ProcessLog.init "sid" (some "uid") "raw" (TS.iso 0) (TS.iso 0))
        [(TS.iso 1, Op.edit 0 1 "human"), (TS.iso 2, Op.endSession)]).events.map
          Event.timestamp
        = TS.iso 0 :: [(TS.iso 1, Op.edit 0 1 "human"),
                       (TS.iso 2, Op.endSession)].map Prod.fst
  ∧ tsChain ((run (ProcessLog.init "sid" (some "uid") "raw" (TS.iso 0) (TS.iso 0))
        [(TS.iso 1, Op.edit 0 1 "human"), (TS.iso 2, Op.endSession)]).events.map
          Event.timestamp) = true :=
  timestamps_follow_clock "sid" (some "uid") "raw" (TS.iso 0) (TS.iso 0)
    [(TS.iso 1, Op.edit 0 1 "human"), (TS.iso 2, Op.endSession)] (by decide)

/-- Demo session of the specified scenario: start; paste of 42 characters
at positions [10, 52]; ai_interaction of type paraphrase, model
demo-model, output length 30, positions [52, 82]. -/
def demoLog : ProcessLog :=
  (((ProcessLog.init "sess" (some "user") "raw" (TS.iso 0) (TS.iso 0)).log_paste
      (TS.iso 60) 42 10 52 "external" "").1.log_ai_interaction
      (TS.iso 120) "paraphrase" "demo-model" 30 52 82 "" "fully_accepted" "").1

/-- Finalize-and-export of the demo session (export performs the
finalization, as in the source where export's first step is
end_session). -/
def demoExport : ExportResult :=
  demoLog.export "<p>body</p>" (TS.iso 180) (TS.iso 180)

/-- C6 — Scenario: after the paste and the ai_interaction, finalizing and
exporting yields exactly 4 events (session_start, paste, ai_interaction,
session_end), usage stats with aiCount 1, pasteCount 1, editCount 0, and
an archive containing the three fixed paths. -/
theorem demo_scenario :
    demoExport.log.events.map Event.type
        = ["session_start", "paste", "ai_interaction", "session_end"]
  ∧ demoExport.log.events.length = 4
  ∧ pdf_stats demoExport.log.start_time demoExport.log.events 0
      = { ai := 1, paste := 1, edits := 0, mins := 3 }
  ∧ demoExport.archive.map Prod.fst
      = ["content/document.xhtml", "meta/process-log.json", "meta/manifest.xml"] := by
  refine ⟨by decide, by decide, by decide, rfl⟩

/-- C8 — Usage-report calculator on well-formed timestamps: the three
counts are the numbers of ai_interaction, paste and edit events, and the
minutes are the elapsed time from start_time to the last session_end
timestamp (or to the current time when no session_end exists), truncated
to whole minutes and floored to a minimum of 1, whenever any events
exist. -/
theorem stats_counts_and_minutes (s now : Int) (evts : List Event)
    (_hne : evts ≠ []) :
    (pdf_stats (TS.iso s) evts now).ai
        = (evts.filter (fun e => e.type == "ai_interaction")).length
  ∧ (pdf_stats (TS.iso s) evts now).paste
        = (evts.filter (fun e => e.type == "paste")).length
  ∧ (pdf_stats (TS.iso s) evts now).edits
        = (evts.filter (fun e => e.type == "edit")).length
  ∧ ((evts.filter (fun e => e.type == "session_end")).getLast? = none →
        (pdf_stats (TS.iso s) evts now).mins = max 1 (Int.tdiv (now - s) 60))
  ∧ (∀ (e : Event) (t : Int),
        (evts.filter (fun e => e.type == "session_end")).getLast? = some e →
        e.timestamp = TS.iso t →
        (pdf_stats (TS.iso s) evts now).mins = max 1 (Int.tdiv (t - s) 60)) := by
  refine ⟨rfl, rfl, rfl, ?_, ?_⟩
  · intro h
    simp [pdf_stats, pdf_ts, h]
  · intro e t h ht
    simp [pdf_stats, pdf_ts, h, ht]

/-- Witness for C8 at a concrete finalized two-minute session. -/
theorem stats_counts_and_minutes_witness :
    (pdf_stats (TS.iso 0)
        [mkEvent (TS.iso 0) "session_start" [],
         mkEvent (TS.iso 120) "session_end" []] 0).mins
      = max 1 (Int.tdiv (120 - 0) 60) :=
  (stats_counts_and_minutes 0 0
      [mkEvent (TS.iso 0) "session_start" [],
       mkEvent (TS.iso 120) "session_end" []] (by decide)).2.2.2.2
    (mkEvent (TS.iso 120) "session_end" []) 120 (by decide) rfl

/-- C9 — Usage-report calculator under malformed timestamps: pdf_stats is
a total function (the source catches every exception of the try block), the
three counts are computed outside the try block and are always the exact
event counts, and each parse failure the source can hit — a malformed
start_time, or a malformed timestamp on the last session_end event —
degrades minutes to 0. -/
theorem stats_total_on_malformed (st : TS) (evts : List Event) (now : Int) :
    (pdf_stats st evts now).ai
        = (evts.filter (fun e => e.type == "ai_interaction")).length
  ∧ (pdf_stats st evts now).paste
        = (evts.filter (fun e => e.type == "paste")).length
  ∧ (pdf_stats st evts now).edits
        = (evts.filter (fun e => e.type == "edit")).length
  ∧ (pdf_ts st = none → (pdf_stats st evts now).mins = 0)
  ∧ (∀ e : Event,
        (evts.filter (fun x => x.type == "session_end")).getLast? = some e →
        pdf_ts e.timestamp = none →
        (pdf_stats st evts now).mins = 0) := by
  refine ⟨rfl, rfl, rfl, ?_, ?_⟩
  · intro h
    simp [pdf_stats, h]
  · intro e h hm
    rcases hst : pdf_ts st with _ | sv
    · simp [pdf_stats, hst]
    · simp [pdf_stats, hst, h, hm]

/-- Witness for C9 at a concrete malformed start_time. -/
theorem stats_total_on_malformed_witness :
    (pdf_stats (TS.malformed "not-a-time")
        [mkEvent (TS.iso 0) "session_start" []] 0).mins = 0 :=
  (stats_total_on_malformed (TS.malformed "not-a-time")
      [mkEvent (TS.iso 0) "session_start" []] 0).2.2.2.1 rfl

end Twff
